import Mathlib

/-!
Shallow embedding of the attendance-ledger and OTP subsystems of the
student-event-management backend.

The embedding models the Mongo collections as in-memory lists and the
Mongoose operations as pure state-passing functions:

* `Event` / `Rsvp` / `Otp` mirror the schemas in `src/models/User.model.js`
  (the Event schema lives in that file), `src/models/RSVP.model.js` and
  `src/models/Otp.model.js`.  Fields that no claim or counter-update touches
  (title, description, location, dietary note, ...) are omitted; they are
  plain data that none of the modelled control flow reads.
* `saveRsvp` is `document.save()` together with the `RSVPSchema.pre("save")`
  middleware; `removeRsvpDoc` is `document.remove()` together with the
  `RSVPSchema.pre("remove")` middleware; `incAttendees` is
  `Event.findByIdAndUpdate(id, { $inc: { currentAttendees: d } })`, which
  bypasses the Event save middleware.
* The RSVP controller functions are taken from the recomputing variant of
  the controller (the second document inside
  `src/controllers/event.controller.js`, the variant the claims cite as
  "second variant" and that the spec adopts in its design notes).
* Mongoose `isModified(path)` is true exactly when the assigned value
  differs from the loaded one; the hook variable `original` is the row as it is
  still stored, so both are modelled by comparing the document being saved
  with the stored row.
* JS numbers are modelled as `Int` where they may go negative
  (`currentAttendees`, timestamps) and as `Nat` where the schema enforces a
  minimum of 0 (`numberOfGuests`, `attempts`); dates are millisecond
  timestamps.
-/

inductive EventStatus
  | pending | approved | rejected | cancelled | completed
deriving DecidableEq, Repr

inductive RsvpStatus
  | attending | waitlisted | cancelled
deriving DecidableEq, Repr

/-- The Event document (EventSchema in `src/models/User.model.js`), restricted
to the fields the attendance ledger reads or writes. -/
structure Event where
  status : EventStatus
  capacity : Int
  currentAttendees : Int
  date : Int
  createdBy : Nat
deriving DecidableEq, Repr

/-- The RSVP document (`src/models/RSVP.model.js`).  `event` and `user` are
document ids; the `(event, user)` pair is unique by the compound index. -/
structure Rsvp where
  event : Nat
  user : Nat
  status : RsvpStatus
  numberOfGuests : Nat
deriving DecidableEq, Repr

/-- The stored state the attendance ledger touches: the events collection
(keyed by id) and the RSVPs collection. -/
structure DB where
  events : List (Nat × Event)
  rsvps : List Rsvp
deriving DecidableEq, Repr

/-- `Event.findById` -/
def findEvent (db : DB) (eid : Nat) : Option Event :=
  (db.events.find? (fun p => p.1 == eid)).map (fun p => p.2)

/-- `RSVP.findOne({ event, user })` (also `RSVP.getUserRSVP`). -/
def findRsvp (db : DB) (eid uid : Nat) : Option Rsvp :=
  db.rsvps.find? (fun r => r.event == eid && r.user == uid)

/-- Update the event with id `eid` in the collection. -/
def updEvents (l : List (Nat × Event)) (eid : Nat) (f : Event → Event) :
    List (Nat × Event) :=
  l.map (fun p => if p.1 == eid then (p.1, f p.2) else p)

/-- `Event.findByIdAndUpdate(eid, { $inc: { currentAttendees: d } })`.
An update query: it does not run the EventSchema save middleware. -/
def incAttendees (db : DB) (eid : Nat) (d : Int) : DB :=
  { db with
    events := updEvents db.events eid
      (fun e => { e with currentAttendees := e.currentAttendees + d }) }

/-- Replace the row with key `(eid, uid)` by `doc`. -/
def updRsvps (l : List Rsvp) (eid uid : Nat) (doc : Rsvp) : List Rsvp :=
  l.map (fun r => if r.event == eid && r.user == uid then doc else r)

/-- `1 + (numberOfGuests || 0)` -/
def totalPeople (r : Rsvp) : Int := 1 + (r.numberOfGuests : Int)

/-- `RSVP.getActualAttendeeCount(eventId)` (`src/models/RSVP.model.js`):
aggregate sum of `1 + numberOfGuests` over the rows of the event with status
`attending`. -/
def getActualAttendeeCount (db : DB) (eid : Nat) : Int :=
  ((db.rsvps.filter
      (fun r => r.event == eid && r.status == RsvpStatus.attending)).map
    totalPeople).sum

/-- `rsvp.save()` together with `RSVPSchema.pre("save")`
(`src/models/RSVP.model.js` lines 63-123).  A document with no stored row
under its `(event, user)` key is new (`isNew`); otherwise `original` is the
stored row and `isModified` compares against it. -/
def saveRsvp (db : DB) (doc : Rsvp) : DB :=
  match findRsvp db doc.event doc.user with
  | none =>
      let db1 :=
        if doc.status = RsvpStatus.attending then
          incAttendees db doc.event (totalPeople doc)
        else db
      { db1 with rsvps := doc :: db1.rsvps }
  | some original =>
      let db1 :=
        if doc.status ≠ original.status then
          if original.status = RsvpStatus.attending ∧
              doc.status ≠ RsvpStatus.attending then
            incAttendees db doc.event (-(totalPeople original))
          else if original.status ≠ RsvpStatus.attending ∧
              doc.status = RsvpStatus.attending then
            incAttendees db doc.event (totalPeople doc)
          else db
        else db
      let db2 :=
        if doc.numberOfGuests ≠ original.numberOfGuests ∧
            doc.status = RsvpStatus.attending then
          let guestDiff : Int :=
            (doc.numberOfGuests : Int) - (original.numberOfGuests : Int)
          if guestDiff ≠ 0 then incAttendees db1 doc.event guestDiff else db1
        else db1
      { db2 with rsvps := updRsvps db2.rsvps doc.event doc.user doc }

/-- `rsvp.remove()` together with `RSVPSchema.pre("remove")`
(`src/models/RSVP.model.js` lines 127-152): decrement for a row that was
`attending` or `waitlisted`, then delete the row. -/
def removeRsvpDoc (db : DB) (doc : Rsvp) : DB :=
  let db1 :=
    if doc.status = RsvpStatus.attending ∨ doc.status = RsvpStatus.waitlisted
    then incAttendees db doc.event (-(totalPeople doc))
    else db
  { db1 with
    rsvps := db1.rsvps.filter
      (fun r => !(r.event == doc.event && r.user == doc.user)) }

inductive ErrCode
  | eventNotFound | eventNotApproved | eventPast | eventFull
  | alreadyRsvped | adminCannotRsvp | rsvpNotFound | capacityExceeded
deriving DecidableEq, Repr

inductive RsvpResult
  | ok (httpStatus : Nat)
  | err (code : ErrCode)
deriving DecidableEq, Repr

/-- `addRSVP` of the recomputing controller variant (second document of
`src/controllers/event.controller.js`, lines 491-629 of the file): guards,
capacity check against `getActualAttendeeCount`, then reactivate-or-create. -/
def addRSVP (db : DB) (eventId userId : Nat) (isAdmin : Bool)
    (numberOfGuests : Nat) (now : Int) : RsvpResult × DB :=
  if isAdmin then (.err .adminCannotRsvp, db)
  else
    match findEvent db eventId with
    | none => (.err .eventNotFound, db)
    | some event =>
      if event.status ≠ EventStatus.approved then (.err .eventNotApproved, db)
      else if event.date ≤ now then (.err .eventPast, db)
      else
        let actualAttendeeCount := getActualAttendeeCount db eventId
        let totalGuests : Int := 1 + (numberOfGuests : Int)
        if event.capacity < actualAttendeeCount + totalGuests then
          (.err .eventFull, db)
        else
          match findRsvp db eventId userId with
          | some existingRSVP =>
            if existingRSVP.status = RsvpStatus.attending then
              (.err .alreadyRsvped, db)
            else
              (.ok 200,
               saveRsvp db
                 { existingRSVP with
                   status := RsvpStatus.attending,
                   numberOfGuests := numberOfGuests })
          | none =>
            (.ok 201,
             saveRsvp db
               { event := eventId, user := userId,
                 status := RsvpStatus.attending,
                 numberOfGuests := numberOfGuests })

/-- `removeRSVP` of the recomputing controller variant (second document of
`src/controllers/event.controller.js`, lines 632-666 of the file): cancel,
never delete; already-cancelled is a success no-op. -/
def removeRSVP (db : DB) (eventId userId : Nat) : RsvpResult × DB :=
  match findRsvp db eventId userId with
  | none => (.err .rsvpNotFound, db)
  | some rsvp =>
    if rsvp.status = RsvpStatus.cancelled then (.ok 200, db)
    else (.ok 200, saveRsvp db { rsvp with status := RsvpStatus.cancelled })

/-- `updateRSVP` of the recomputing controller variant (second document of
`src/controllers/event.controller.js`, lines 855-932 of the file).
`numberOfGuests = none` models the field being absent from the request body,
likewise `newStatus`.  In the reactivation guard the source computes
`1 + (parseInt(numberOfGuests) || rsvp.numberOfGuests || 0)`; `parseInt` of
an absent field is `NaN` and both `NaN` and `0` are falsy, which the inner
`match`/`if` reproduces. -/
def updateRSVP (db : DB) (eventId userId : Nat) (numberOfGuests : Option Nat)
    (newStatus : Option RsvpStatus) : RsvpResult × DB :=
  match findRsvp db eventId userId with
  | none => (.err .rsvpNotFound, db)
  | some rsvp0 =>
    match findEvent db eventId with
    | none => (.err .eventNotFound, db)
    | some event =>
      let statusStep : Except ErrCode Rsvp :=
        match newStatus with
        | none => .ok rsvp0
        | some s =>
          if s = rsvp0.status then .ok rsvp0
          else if s = RsvpStatus.attending then
            let actual := getActualAttendeeCount db eventId
            let g : Nat :=
              match numberOfGuests with
              | some n => if n = 0 then rsvp0.numberOfGuests else n
              | none => rsvp0.numberOfGuests
            if event.capacity < actual + (1 + (g : Int)) then
              .error .capacityExceeded
            else .ok { rsvp0 with status := s }
          else .ok { rsvp0 with status := s }
      match statusStep with
      | .error c => (.err c, db)
      | .ok rsvp1 =>
        match numberOfGuests with
        | some n =>
          if rsvp1.status = RsvpStatus.attending then
            let actual := getActualAttendeeCount db eventId
            let currentContribution : Int := 1 + (rsvp1.numberOfGuests : Int)
            let newTotal := actual - currentContribution + 1 + (n : Int)
            if event.capacity < newTotal then (.err .capacityExceeded, db)
            else (.ok 200, saveRsvp db { rsvp1 with numberOfGuests := n })
          else (.ok 200, saveRsvp db rsvp1)
        | none => (.ok 200, saveRsvp db rsvp1)

/-- `EventSchema.pre("save")` (`src/models/User.model.js`, identical in both
variants of the Event schema in that file): a save of a cancelled event
resets `currentAttendees` to 0. -/
def eventSaveHook (e : Event) : Event :=
  if e.status = EventStatus.cancelled then { e with currentAttendees := 0 }
  else e

/-- The cascade of `deleteUser` (`src/controllers/admin.controller.js` lines
176-181): `Event.deleteMany({ createdBy: id })` then
`RSVP.deleteMany({ user: id })`.  `Model.deleteMany` is a query-level bulk
delete: it does not load documents and does not run the
`RSVPSchema.pre("remove")` document middleware, so no `currentAttendees`
adjustment happens on this path. -/
def deleteUserCascade (db : DB) (uid : Nat) : DB :=
  { events := db.events.filter (fun p => !(p.2.createdBy == uid)),
    rsvps := db.rsvps.filter (fun r => !(r.user == uid)) }

/-- The OTP document (`src/models/Otp.model.js`), restricted to the fields
`createOTP` / `verifyOTP` / `validateOTP` read or write. -/
structure Otp where
  email : String
  code : String
  purpose : String
  expiresAt : Int
  attempts : Nat
  isVerified : Bool
  userId : Option Nat
deriving DecidableEq, Repr

inductive OtpMessage
  | expired | attemptsExceeded | invalidCode | verifiedOk | notFoundOrVerified
deriving DecidableEq, Repr

structure VerifyOutcome where
  success : Bool
  message : OtpMessage
deriving DecidableEq, Repr

/-- `otp.verifyOTP(inputCode)` (`src/models/Otp.model.js` lines 116-143) with
the default `incrementAttempts = true`; returns the result object and the
(possibly mutated) document. -/
def verifyOTP (otp : Otp) (inputCode : String) (now : Int) :
    VerifyOutcome × Otp :=
  if otp.expiresAt < now then (⟨false, .expired⟩, otp)
  else if 5 ≤ otp.attempts then (⟨false, .attemptsExceeded⟩, otp)
  else
    let otp1 := { otp with attempts := otp.attempts + 1 }
    if otp1.code ≠ inputCode then (⟨false, .invalidCode⟩, otp1)
    else (⟨true, .verifiedOk⟩, { otp1 with isVerified := true })

structure OtpResult where
  success : Bool
  message : OtpMessage
  userId : Option Nat
deriving DecidableEq, Repr

/-- The `findOne({ email, purpose, isVerified: false })` criterion. -/
def otpKeyMatch (email purpose : String) (o : Otp) : Bool :=
  o.email == email && o.purpose == purpose && o.isVerified == false

/-- Persist a mutated document back into the store (the `otp.save()` calls
in `validateOTP`): the first row matching the lookup is the loaded one. -/
def replaceFirst {α : Type} (p : α → Bool) (a : α) : List α → List α
  | [] => []
  | x :: xs => if p x then a :: xs else x :: replaceFirst p a xs

/-- `OTP.validateOTP(email, code, purpose)` (`src/models/Otp.model.js` lines
146-178): both the mismatch branch and the success branch `save()` the
document. -/
def validateOTP (store : List Otp) (email code purpose : String) (now : Int) :
    OtpResult × List Otp :=
  match store.find? (otpKeyMatch email purpose) with
  | none => (⟨false, .notFoundOrVerified, none⟩, store)
  | some otp =>
    let r := verifyOTP otp code now
    let store1 := replaceFirst (otpKeyMatch email purpose) r.2 store
    if r.1.success then (⟨true, r.1.message, otp.userId⟩, store1)
    else (⟨false, r.1.message, none⟩, store1)

/-- `OTP.createOTP(email, purpose, userId)` (`src/models/Otp.model.js` lines
83-113): delete prior `(email, purpose)` rows, persist a fresh record with
`expiresAt = now + 10 minutes` (600000 ms), `attempts = 0`,
`isVerified = false`.  The random 6-digit code from `generateOTP` is taken
as the argument `code`. -/
def createOTP (store : List Otp) (email purpose : String)
    (userId : Option Nat) (code : String) (now : Int) : List Otp × String :=
  let store1 :=
    store.filter (fun o => !(o.email == email && o.purpose == purpose))
  ({ email := email, code := code, purpose := purpose,
     expiresAt := now + 600000, attempts := 0, isVerified := false,
     userId := userId } :: store1, code)

/-! Helper lemmas about the collection updates. -/

theorem find?_updEvents_self (l : List (Nat × Event)) (eid : Nat)
    (f : Event → Event) :
    (updEvents l eid f).find? (fun p => p.1 == eid) =
      (l.find? (fun p => p.1 == eid)).map (fun p => (p.1, f p.2)) := by
  induction l with
  | nil => rfl
  | cons p t ih =>
    by_cases h : p.1 = eid
    · simp [updEvents, List.find?_cons, h]
    · simp [updEvents, List.find?_cons, h] at ih ⊢
      exact ih

theorem findEvent_incAttendees_self (db : DB) (eid : Nat) (d : Int) :
    findEvent (incAttendees db eid d) eid =
      (findEvent db eid).map
        (fun e => { e with currentAttendees := e.currentAttendees + d }) := by
  unfold findEvent incAttendees
  rw [find?_updEvents_self]
  cases db.events.find? (fun p => p.1 == eid) <;> rfl

theorem find?_updRsvps_self (l : List Rsvp) (eid uid : Nat) (doc : Rsvp)
    (h1 : doc.event = eid) (h2 : doc.user = uid) :
    (updRsvps l eid uid doc).find? (fun r => r.event == eid && r.user == uid) =
      (l.find? (fun r => r.event == eid && r.user == uid)).map
        (fun _ => doc) := by
  have hd : (doc.event == eid && doc.user == uid) = true := by simp [h1, h2]
  induction l with
  | nil => rfl
  | cons x t ih =>
    simp only [updRsvps, List.map_cons]
    simp only [updRsvps] at ih
    cases hb : (x.event == eid && x.user == uid) with
    | true =>
      rw [if_pos rfl]
      simp [List.find?_cons, hd, hb]
    | false =>
      rw [if_neg (by simp)]
      simp only [List.find?_cons, hb]
      exact ih

theorem replaceFirst_self {α : Type} (p : α → Bool) (a : α) (l : List α)
    (h : l.find? p = some a) : replaceFirst p a l = l := by
  induction l with
  | nil => simp at h
  | cons x xs ih =>
    by_cases hx : p x
    · rw [List.find?_cons_of_pos _ hx] at h
      simp only [Option.some.injEq] at h
      subst h
      simp [replaceFirst, hx]
    · rw [List.find?_cons_of_neg _ (by simpa using hx)] at h
      simp [replaceFirst, hx, ih h]

theorem findRsvp_key (db : DB) (eid uid : Nat) (r : Rsvp)
    (h : findRsvp db eid uid = some r) : r.event = eid ∧ r.user = uid := by
  have := List.find?_some h
  simpa using this

theorem findRsvp_updRsvps_eq (E : List (Nat × Event)) (l : List Rsvp)
    (eid uid : Nat) (doc : Rsvp) (h1 : doc.event = eid) (h2 : doc.user = uid)
    (r : Rsvp)
    (hfound : l.find? (fun x => x.event == eid && x.user == uid) = some r) :
    findRsvp ⟨E, updRsvps l eid uid doc⟩ eid uid = some doc := by
  unfold findRsvp
  dsimp only
  rw [find?_updRsvps_self l eid uid doc h1 h2, hfound]
  rfl

theorem findEvent_updEvents_eq (E : List (Nat × Event)) (l l2 : List Rsvp)
    (eid : Nat) (f : Event → Event) (e : Event)
    (hfe : findEvent ⟨E, l2⟩ eid = some e) :
    findEvent ⟨updEvents E eid f, l⟩ eid = some (f e) := by
  unfold findEvent at hfe ⊢
  dsimp only at hfe ⊢
  rw [find?_updEvents_self]
  cases hq : E.find? (fun p => p.1 == eid) with
  | none => rw [hq] at hfe; simp at hfe
  | some p =>
    rw [hq] at hfe
    simp at hfe
    simp [hfe]

/-! Claim theorems. -/

/-- Claim C1.  The claimed ledger invariant (`currentAttendees` equals the
sum of `1 + numberOfGuests` over the attending RSVPs of the event) does NOT
survive every sequence of ledger operations: starting from a consistent
state (counter 0, no RSVPs), the sequence add RSVP (0 guests), cancel,
re-add with 1 guest leaves the cached counter at 3 while the attending sum
is 2 — the save hook adds both the reactivation total (2) and the guest
diff (1). -/
theorem c1_ledger_invariant_violated_on_reactivation :
    (let db0 : DB := ⟨[(0, ⟨EventStatus.approved, 10, 0, 100, 99⟩)], []⟩
     let s1 := addRSVP db0 0 1 false 0 0
     let s2 := removeRSVP s1.2 0 1
     let s3 := addRSVP s2.2 0 1 false 1 0
     s1.1 = .ok 201 ∧ s2.1 = .ok 200 ∧ s3.1 = .ok 200 ∧
     getActualAttendeeCount db0 0 = 0 ∧
     (findEvent db0 0).map Event.currentAttendees = some 0 ∧
     (findEvent s3.2 0).map Event.currentAttendees = some 3 ∧
     getActualAttendeeCount s3.2 0 = 2) := by decide

/-- Claim C2.  Once an add-or-reactivate request reaches the capacity
check of an existing, approved, strictly-future event, the EVENT_FULL
decision is equivalent to `actualOccupancy + (1 + guests) > capacity`
computed by `getActualAttendeeCount` — for every value of the cached
`currentAttendees` field — and on EVENT_FULL the whole stored state is
returned unchanged. -/
theorem c2_capacity_check_uses_actual_occupancy (db : DB)
    (eventId userId : Nat) (numberOfGuests : Nat) (now : Int) (event : Event)
    (hev : findEvent db eventId = some event)
    (happ : event.status = EventStatus.approved)
    (hfut : now < event.date) :
    (addRSVP db eventId userId false numberOfGuests now =
        (.err .eventFull, db) ↔
      event.capacity <
        getActualAttendeeCount db eventId + (1 + (numberOfGuests : Int))) := by
  have hnle : ¬ event.date ≤ now := not_le.mpr hfut
  unfold addRSVP
  rw [hev]
  simp only [Bool.false_eq_true, if_false]
  rw [if_neg (by simp [happ]), if_neg hnle]
  by_cases hc :
      event.capacity <
        getActualAttendeeCount db eventId + (1 + (numberOfGuests : Int))
  · rw [if_pos hc]
    simp [hc]
  · rw [if_neg hc]
    constructor
    · intro heq
      exfalso
      cases hfr : findRsvp db eventId userId with
      | none => rw [hfr] at heq; simp at heq
      | some ex =>
        rw [hfr] at heq
        by_cases hst : ex.status = RsvpStatus.attending
        · simp [hst] at heq
        · simp [hst] at heq
    · intro hcc
      exact absurd hcc hc

/-- Witness for C2 at a concrete state where the cached counter (0) would
have allowed the request but the actual occupancy (1) fills the
capacity-1 event, so the request fails with EVENT_FULL and nothing
changes. -/
theorem c2_capacity_check_witness :
    (let db : DB := ⟨[(0, ⟨EventStatus.approved, 1, 0, 100, 5⟩)],
        [⟨0, 2, RsvpStatus.attending, 0⟩]⟩
     findEvent db 0 = some ⟨EventStatus.approved, 1, 0, 100, 5⟩ ∧
     (0 : Int) < 100 ∧
     (addRSVP db 0 1 false 0 0 = (.err .eventFull, db) ↔
       (1 : Int) < getActualAttendeeCount db 0 + (1 + 0))) :=
  ⟨by decide, by decide,
    c2_capacity_check_uses_actual_occupancy _ 0 1 0 0
      ⟨EventStatus.approved, 1, 0, 100, 5⟩ (by decide) (by decide) (by decide)⟩

/-- Claim C3.  The reactivation path does NOT increment the counter by
exactly `1 + newGuestCount`: re-RSVPing a cancelled (0-guest) record with
1 guest increments the counter by 3 = (1 + 1) + (1 - 0) instead of the
claimed 2, because the save hook applies both the status-flip total and
the guest diff. -/
theorem c3_reactivation_counter_overcount :
    (let db0 : DB := ⟨[(0, ⟨EventStatus.approved, 10, 0, 100, 99⟩)],
        [⟨0, 1, RsvpStatus.cancelled, 0⟩]⟩
     let s := addRSVP db0 0 1 false 1 0
     s.1 = .ok 200 ∧
     findRsvp s.2 0 1 = some ⟨0, 1, RsvpStatus.attending, 1⟩ ∧
     (findEvent s.2 0).map Event.currentAttendees = some 3 ∧
     (3 : Int) ≠ 0 + (1 + 1)) := by decide

/-- Claim C4.  Cancelling is idempotent and history-preserving: an
already-cancelled RSVP yields a success no-op (identical state, so a second
cancel observes the same); an attending RSVP is flipped to cancelled, the
event counter drops by the recorded `1 + numberOfGuests`, and the row count
is unchanged (no deletion). -/
theorem c4_cancel_idempotent_decrement_no_delete (db : DB) (eid uid : Nat)
    (r : Rsvp) (e : Event)
    (hr : findRsvp db eid uid = some r) (he : findEvent db eid = some e) :
    (r.status = RsvpStatus.cancelled → removeRSVP db eid uid = (.ok 200, db)) ∧
    (r.status = RsvpStatus.attending →
      (removeRSVP db eid uid).1 = .ok 200 ∧
      findRsvp (removeRSVP db eid uid).2 eid uid =
        some { r with status := RsvpStatus.cancelled } ∧
      findEvent (removeRSVP db eid uid).2 eid =
        some { e with currentAttendees := e.currentAttendees - totalPeople r } ∧
      (removeRSVP db eid uid).2.rsvps.length = db.rsvps.length) := by
  obtain ⟨hre, hru⟩ := findRsvp_key db eid uid r hr
  constructor
  · intro h
    unfold removeRSVP
    rw [hr]
    dsimp only
    rw [if_pos h]
  · intro h
    have hnc : ¬ r.status = RsvpStatus.cancelled := by rw [h]; simp
    have hfr2 : findRsvp db r.event r.user = some r := by rw [hre, hru]; exact hr
    have hrem : removeRSVP db eid uid =
        (.ok 200, saveRsvp db { r with status := RsvpStatus.cancelled }) := by
      unfold removeRSVP
      rw [hr]
      dsimp only
      rw [if_neg hnc]
    have hsave : saveRsvp db { r with status := RsvpStatus.cancelled } =
        ⟨updEvents db.events r.event
            (fun ev => { ev with currentAttendees :=
                ev.currentAttendees + -(totalPeople r) }),
          updRsvps db.rsvps r.event r.user
            { r with status := RsvpStatus.cancelled }⟩ := by
      unfold saveRsvp
      dsimp only
      rw [hfr2]
      simp [h, incAttendees]
    rw [hrem, hsave]
    refine ⟨rfl, ?_, ?_, ?_⟩
    · rw [← hre, ← hru]
      exact findRsvp_updRsvps_eq _ db.rsvps r.event r.user _ rfl rfl r hfr2
    · rw [← hre] at he ⊢
      have := findEvent_updEvents_eq db.events
        (updRsvps db.rsvps r.event r.user
          { r with status := RsvpStatus.cancelled }) db.rsvps r.event
        (fun ev => { ev with currentAttendees :=
            ev.currentAttendees + -(totalPeople r) }) e he
      rw [this]
      dsimp only
      have harith : e.currentAttendees + -(totalPeople r) =
          e.currentAttendees - totalPeople r := by ring
      rw [harith]
    · exact List.length_map _ _

/-- Witness for C4: an attending 2-guest RSVP is cancelled, the counter
drops from 5 to 2, the row survives with status cancelled. -/
theorem c4_cancel_witness :
    (let db : DB := ⟨[(0, ⟨EventStatus.approved, 10, 5, 100, 9⟩)],
        [⟨0, 1, RsvpStatus.attending, 2⟩]⟩
     findRsvp db 0 1 = some ⟨0, 1, RsvpStatus.attending, 2⟩ ∧
     findEvent db 0 = some ⟨EventStatus.approved, 10, 5, 100, 9⟩ ∧
     (((⟨0, 1, RsvpStatus.attending, 2⟩ : Rsvp).status = RsvpStatus.cancelled →
        removeRSVP db 0 1 = (.ok 200, db)) ∧
      ((⟨0, 1, RsvpStatus.attending, 2⟩ : Rsvp).status = RsvpStatus.attending →
        (removeRSVP db 0 1).1 = .ok 200 ∧
        findRsvp (removeRSVP db 0 1).2 0 1 =
          some ⟨0, 1, RsvpStatus.cancelled, 2⟩ ∧
        findEvent (removeRSVP db 0 1).2 0 =
          some ⟨EventStatus.approved, 10,
            5 - totalPeople ⟨0, 1, RsvpStatus.attending, 2⟩, 100, 9⟩ ∧
        (removeRSVP db 0 1).2.rsvps.length = db.rsvps.length))) :=
  ⟨by decide, by decide,
    c4_cancel_idempotent_decrement_no_delete _ 0 1
      ⟨0, 1, RsvpStatus.attending, 2⟩ ⟨EventStatus.approved, 10, 5, 100, 9⟩
      (by decide) (by decide)⟩

/-- Claim C5.  A guest-count update on an attending RSVP is rejected with
CAPACITY_EXCEEDED exactly when the occupancy excluding this RSVP plus
`1 + newGuestCount` exceeds capacity (and then nothing changes); otherwise
the guest count is set and the event counter moves by exactly
`newGuestCount - oldGuestCount`. -/
theorem c5_guest_update_capacity_and_delta (db : DB) (eid uid : Nat)
    (n : Nat) (r : Rsvp) (e : Event)
    (hr : findRsvp db eid uid = some r) (hs : r.status = RsvpStatus.attending)
    (he : findEvent db eid = some e) :
    (e.capacity <
        getActualAttendeeCount db eid - (1 + (r.numberOfGuests : Int)) + 1
          + (n : Int) →
      updateRSVP db eid uid (some n) none = (.err .capacityExceeded, db)) ∧
    (¬ e.capacity <
        getActualAttendeeCount db eid - (1 + (r.numberOfGuests : Int)) + 1
          + (n : Int) →
      (updateRSVP db eid uid (some n) none).1 = .ok 200 ∧
      findRsvp (updateRSVP db eid uid (some n) none).2 eid uid =
        some { r with numberOfGuests := n } ∧
      findEvent (updateRSVP db eid uid (some n) none).2 eid =
        some { e with currentAttendees :=
            e.currentAttendees + ((n : Int) - (r.numberOfGuests : Int)) }) := by
  obtain ⟨hre, hru⟩ := findRsvp_key db eid uid r hr
  have hfr2 : findRsvp db r.event r.user = some r := by rw [hre, hru]; exact hr
  constructor
  · intro hcap
    unfold updateRSVP
    rw [hr]
    dsimp only
    rw [he]
    dsimp only
    rw [if_pos hs, if_pos hcap]
  · intro hcap
    have hstep : updateRSVP db eid uid (some n) none =
        (.ok 200, saveRsvp db { r with numberOfGuests := n }) := by
      unfold updateRSVP
      rw [hr]
      dsimp only
      rw [he]
      dsimp only
      rw [if_pos hs, if_neg hcap]
    rw [hstep]
    by_cases hg : n = r.numberOfGuests
    · have hsave : saveRsvp db { r with numberOfGuests := n } =
          ⟨db.events, updRsvps db.rsvps r.event r.user
            { r with numberOfGuests := n }⟩ := by
        unfold saveRsvp
        dsimp only
        rw [hfr2]
        simp [hg]
      rw [hsave]
      refine ⟨rfl, ?_, ?_⟩
      · rw [← hre, ← hru]
        exact findRsvp_updRsvps_eq db.events db.rsvps r.event r.user
          _ rfl rfl r hfr2
      · have h2 : findEvent (⟨db.events, updRsvps db.rsvps r.event r.user
            { r with numberOfGuests := n }⟩ : DB) eid = findEvent db eid := rfl
        rw [h2, he]
        simp [hg]
    · have hne : ((n : Int) - (r.numberOfGuests : Int)) ≠ 0 := by
        intro h0
        apply hg
        omega
      have hsave : saveRsvp db { r with numberOfGuests := n } =
          ⟨updEvents db.events r.event
            (fun ev => { ev with currentAttendees :=
                ev.currentAttendees + ((n : Int) - (r.numberOfGuests : Int)) }),
           updRsvps db.rsvps r.event r.user { r with numberOfGuests := n }⟩ := by
        unfold saveRsvp
        dsimp only
        rw [hfr2]
        simp [hg, hs, hne, incAttendees]
      rw [hsave]
      refine ⟨rfl, ?_, ?_⟩
      · rw [← hre, ← hru]
        exact findRsvp_updRsvps_eq _ db.rsvps r.event r.user _ rfl rfl r hfr2
      · rw [← hre] at he ⊢
        exact findEvent_updEvents_eq db.events _ db.rsvps r.event _ e he

/-- Witness for C5: capacity 5, occupancy 3 held entirely by this 2-guest
RSVP; raising to 4 guests (total 5) is allowed and moves the counter by
exactly 2. -/
theorem c5_guest_update_witness :
    (let db : DB := ⟨[(0, ⟨EventStatus.approved, 5, 3, 100, 9⟩)],
        [⟨0, 1, RsvpStatus.attending, 2⟩]⟩
     findRsvp db 0 1 = some ⟨0, 1, RsvpStatus.attending, 2⟩ ∧
     (⟨0, 1, RsvpStatus.attending, 2⟩ : Rsvp).status = RsvpStatus.attending ∧
     findEvent db 0 = some ⟨EventStatus.approved, 5, 3, 100, 9⟩ ∧
     (((5 : Int) < getActualAttendeeCount db 0 - (1 + 2) + 1 + 4 →
        updateRSVP db 0 1 (some 4) none = (.err .capacityExceeded, db)) ∧
      (¬ (5 : Int) < getActualAttendeeCount db 0 - (1 + 2) + 1 + 4 →
        (updateRSVP db 0 1 (some 4) none).1 = .ok 200 ∧
        findRsvp (updateRSVP db 0 1 (some 4) none).2 0 1 =
          some ⟨0, 1, RsvpStatus.attending, 4⟩ ∧
        findEvent (updateRSVP db 0 1 (some 4) none).2 0 =
          some ⟨EventStatus.approved, 5, 3 + ((4 : Int) - 2), 100, 9⟩))) :=
  ⟨by decide, by decide, by decide,
    c5_guest_update_capacity_and_delta _ 0 1 4
      ⟨0, 1, RsvpStatus.attending, 2⟩ ⟨EventStatus.approved, 5, 3, 100, 9⟩
      (by decide) (by decide) (by decide)⟩

/-- Claim C6.  Deleting a user removes their RSVP rows but does NOT
decrement the counters of the affected events: the cascade uses a query-level
bulk delete that never runs the document remove middleware.  The
document-remove path (last conjunct) would have decremented the counter to
0; the cascade leaves it at 1. -/
theorem c6_user_delete_cascade_skips_decrement :
    (let db0 : DB := ⟨[(0, ⟨EventStatus.approved, 10, 1, 100, 2⟩)],
        [⟨0, 1, RsvpStatus.attending, 0⟩]⟩
     let db1 := deleteUserCascade db0 1
     db1.rsvps = [] ∧
     (findEvent db1 0).map Event.currentAttendees = some 1 ∧
     getActualAttendeeCount db1 0 = 0 ∧
     (findEvent (removeRsvpDoc db0 ⟨0, 1, RsvpStatus.attending, 0⟩) 0).map
        Event.currentAttendees = some 0) := by decide

/-- Claim C7.  The Event save middleware zeroes `currentAttendees` whenever
the status of the saved event is cancelled, so every event saved with status
cancelled is stored with zero attendance. -/
theorem c7_cancelled_event_zero_attendees (e : Event)
    (h : (eventSaveHook e).status = EventStatus.cancelled) :
    (eventSaveHook e).currentAttendees = 0 := by
  by_cases hc : e.status = EventStatus.cancelled
  · simp [eventSaveHook, hc]
  · simp [eventSaveHook, hc] at h

/-- Witness for C7: saving a cancelled event that still carried 3 attendees
stores it with 0. -/
theorem c7_cancelled_event_witness :
    ((eventSaveHook ⟨EventStatus.cancelled, 5, 3, 100, 1⟩).status =
      EventStatus.cancelled ∧
     (eventSaveHook ⟨EventStatus.cancelled, 5, 3, 100, 1⟩).currentAttendees
      = 0) :=
  ⟨by decide,
    c7_cancelled_event_zero_attendees ⟨EventStatus.cancelled, 5, 3, 100, 1⟩
      (by decide)⟩

/-! Helper lemmas about the OTP operations. -/

theorem validateOTP_expired (store : List Otp) (email code purpose : String)
    (now : Int) (otp : Otp)
    (hfind : store.find? (otpKeyMatch email purpose) = some otp)
    (hexp : otp.expiresAt < now) :
    validateOTP store email code purpose now =
      (⟨false, .expired, none⟩, store) := by
  unfold validateOTP
  rw [hfind]
  dsimp only
  unfold verifyOTP
  rw [if_pos hexp]
  dsimp only
  rw [replaceFirst_self _ _ _ hfind]
  rfl

theorem validateOTP_attempts_exceeded (store : List Otp)
    (email code purpose : String) (now : Int) (otp : Otp)
    (hfind : store.find? (otpKeyMatch email purpose) = some otp)
    (hexp : now ≤ otp.expiresAt) (hatt : 5 ≤ otp.attempts) :
    validateOTP store email code purpose now =
      (⟨false, .attemptsExceeded, none⟩, store) := by
  unfold validateOTP
  rw [hfind]
  dsimp only
  unfold verifyOTP
  rw [if_neg (not_lt.mpr hexp), if_pos hatt]
  dsimp only
  rw [replaceFirst_self _ _ _ hfind]
  rfl

theorem validateOTP_wrong_code (store : List Otp)
    (email code purpose : String) (now : Int) (otp : Otp)
    (hfind : store.find? (otpKeyMatch email purpose) = some otp)
    (hexp : now ≤ otp.expiresAt) (hatt : otp.attempts < 5)
    (hcode : otp.code ≠ code) :
    validateOTP store email code purpose now =
      (⟨false, .invalidCode, none⟩,
        replaceFirst (otpKeyMatch email purpose)
          { otp with attempts := otp.attempts + 1 } store) := by
  unfold validateOTP
  rw [hfind]
  dsimp only
  unfold verifyOTP
  rw [if_neg (not_lt.mpr hexp), if_neg (not_le.mpr hatt), if_pos hcode]
  rfl

/-- Counterexample to Claim C8 as stated: a validation against an existing
unverified record whose attempt counter is 5 does NOT fail with
ATTEMPTS_EXCEEDED when the record has also expired — the expiry check runs
first and the result is EXPIRED. -/
theorem c8_attempts_cap_counterexample :
    (let o : Otp := ⟨"a@b.cd", "123456", "registration", 0, 5, false, none⟩
     5 ≤ o.attempts ∧ o.isVerified = false ∧
     (validateOTP [o] "a@b.cd" "999999" "registration" 1).1.message =
       OtpMessage.expired ∧
     OtpMessage.expired ≠ OtpMessage.attemptsExceeded) := by decide

/-- Claim C8 (amended: restricted to validations inside the validity
window, `now ≤ expiresAt`).  With the record unexpired: an attempt counter
already at 5 or more fails with ATTEMPTS_EXCEEDED regardless of the
submitted code and leaves the store unchanged; below the cap a wrong code
fails with INVALID_CODE and persists the incremented counter; hence 5
consecutive wrong validations of a fresh OTP each fail with INVALID_CODE
and the 6th fails with ATTEMPTS_EXCEEDED even with the correct code
(concrete run, last conjunct). -/
theorem c8_attempts_cap_amended :
    (∀ (store : List Otp) (email code purpose : String) (now : Int)
        (otp : Otp),
      store.find? (otpKeyMatch email purpose) = some otp →
      now ≤ otp.expiresAt → 5 ≤ otp.attempts →
      validateOTP store email code purpose now =
        (⟨false, .attemptsExceeded, none⟩, store)) ∧
    (∀ (store : List Otp) (email code purpose : String) (now : Int)
        (otp : Otp),
      store.find? (otpKeyMatch email purpose) = some otp →
      now ≤ otp.expiresAt → otp.attempts < 5 → otp.code ≠ code →
      validateOTP store email code purpose now =
        (⟨false, .invalidCode, none⟩,
          replaceFirst (otpKeyMatch email purpose)
            { otp with attempts := otp.attempts + 1 } store)) ∧
    (let o : Otp := ⟨"u@x.io", "111111", "registration", 600000, 0, false,
        some 7⟩
     let v1 := validateOTP [o] "u@x.io" "000000" "registration" 0
     let v2 := validateOTP v1.2 "u@x.io" "000000" "registration" 0
     let v3 := validateOTP v2.2 "u@x.io" "000000" "registration" 0
     let v4 := validateOTP v3.2 "u@x.io" "000000" "registration" 0
     let v5 := validateOTP v4.2 "u@x.io" "000000" "registration" 0
     let v6 := validateOTP v5.2 "u@x.io" "111111" "registration" 0
     (v1.1.message, v2.1.message, v3.1.message, v4.1.message, v5.1.message,
       v6.1.message) =
     (.invalidCode, .invalidCode, .invalidCode, .invalidCode, .invalidCode,
       .attemptsExceeded)) := by
  refine ⟨?_, ?_, by decide⟩
  · intro store email code purpose now otp hfind hexp hatt
    exact validateOTP_attempts_exceeded store email code purpose now otp
      hfind hexp hatt
  · intro store email code purpose now otp hfind hexp hatt hcode
    exact validateOTP_wrong_code store email code purpose now otp
      hfind hexp hatt hcode

/-- Witness for C8 (amended), applying the capped branch at a concrete
unexpired record with 5 attempts: the result is ATTEMPTS_EXCEEDED even
though the submitted code is correct. -/
theorem c8_attempts_cap_witness :
    (let o : Otp := ⟨"a@b.cd", "123456", "registration", 100, 5, false, none⟩
     List.find? (otpKeyMatch "a@b.cd" "registration") [o] = some o ∧
     (50 : Int) ≤ o.expiresAt ∧ 5 ≤ o.attempts ∧
     validateOTP [o] "a@b.cd" "123456" "registration" 50 =
       (⟨false, .attemptsExceeded, none⟩, [o])) :=
  ⟨by decide, by decide, by decide,
    c8_attempts_cap_amended.1 _ "a@b.cd" "123456" "registration" 50
      ⟨"a@b.cd", "123456", "registration", 100, 5, false, none⟩
      (by decide) (by decide) (by decide)⟩

/-- Claim C9.  A validation after the expiry instant fails with EXPIRED and
returns the store unchanged (no attempt increment); and an OTP issued at
time `t` (expiry `t + 600000` ms, i.e. 10 minutes) validated 11 minutes
later (`t + 660000`) fails with EXPIRED, store unchanged. -/
theorem c9_expired_validation_no_increment :
    (∀ (store : List Otp) (email code purpose : String) (now : Int)
        (otp : Otp),
      store.find? (otpKeyMatch email purpose) = some otp →
      otp.expiresAt < now →
      validateOTP store email code purpose now =
        (⟨false, .expired, none⟩, store)) ∧
    (∀ (store : List Otp) (email purpose code code2 : String)
        (uid : Option Nat) (now : Int),
      validateOTP (createOTP store email purpose uid code now).1 email code2
          purpose (now + 660000) =
        (⟨false, .expired, none⟩,
          (createOTP store email purpose uid code now).1)) := by
  constructor
  · intro store email code purpose now otp hfind hexp
    exact validateOTP_expired store email code purpose now otp hfind hexp
  · intro store email purpose code code2 uid now
    have hfind : ((createOTP store email purpose uid code now).1).find?
        (otpKeyMatch email purpose) =
        some { email := email, code := code, purpose := purpose,
               expiresAt := now + 600000, attempts := 0, isVerified := false,
               userId := uid } := by
      unfold createOTP
      dsimp only
      simp [List.find?_cons, otpKeyMatch]
    exact validateOTP_expired _ email code2 purpose (now + 660000) _ hfind
      (by show now + 600000 < now + 660000; omega)

/-- Witness for C9: a record expiring at 10 validated at time 11 fails
EXPIRED with the store (and so its attempt counter, still 2) unchanged. -/
theorem c9_expired_validation_witness :
    (let o : Otp := ⟨"a@b.cd", "123456", "registration", 10, 2, false, some 4⟩
     List.find? (otpKeyMatch "a@b.cd" "registration") [o] = some o ∧
     o.expiresAt < (11 : Int) ∧
     validateOTP [o] "999999" "999999" "registration" 11 =
       (⟨false, .notFoundOrVerified, none⟩, [o]) ∧
     validateOTP [o] "a@b.cd" "999999" "registration" 11 =
       (⟨false, .expired, none⟩, [o])) :=
  ⟨by decide, by decide, by decide,
    c9_expired_validation_no_increment.1 _ "a@b.cd" "999999" "registration" 11
      ⟨"a@b.cd", "123456", "registration", 10, 2, false, some 4⟩
      (by decide) (by decide)⟩

/-- Claim C10.  Creating a waitlisted RSVP through the save path leaves the
event untouched (the save hook increments only for attending), while
removing it through the document-remove path decrements by
`1 + numberOfGuests` (the remove hook treats waitlisted like attending), so
the round trip strictly decreases `currentAttendees`. -/
theorem c10_waitlist_create_remove_decreases (db : DB) (eid uid g : Nat)
    (e : Event)
    (he : findEvent db eid = some e) (hnew : findRsvp db eid uid = none) :
    (findEvent (saveRsvp db ⟨eid, uid, RsvpStatus.waitlisted, g⟩) eid
        = some e) ∧
    (findEvent (removeRsvpDoc (saveRsvp db ⟨eid, uid, RsvpStatus.waitlisted, g⟩)
        ⟨eid, uid, RsvpStatus.waitlisted, g⟩) eid =
      some { e with currentAttendees :=
          e.currentAttendees - (1 + (g : Int)) }) ∧
    e.currentAttendees - (1 + (g : Int)) < e.currentAttendees := by
  have hsave : saveRsvp db ⟨eid, uid, RsvpStatus.waitlisted, g⟩ =
      ⟨db.events, ⟨eid, uid, RsvpStatus.waitlisted, g⟩ :: db.rsvps⟩ := by
    unfold saveRsvp
    dsimp only
    rw [hnew]
    simp
  have hrem : removeRsvpDoc
      (⟨db.events, ⟨eid, uid, RsvpStatus.waitlisted, g⟩ :: db.rsvps⟩ : DB)
      ⟨eid, uid, RsvpStatus.waitlisted, g⟩ =
      ⟨updEvents db.events eid (fun ev => { ev with currentAttendees :=
          ev.currentAttendees + -(1 + (g : Int)) }),
        (((⟨eid, uid, RsvpStatus.waitlisted, g⟩ : Rsvp) :: db.rsvps).filter
          (fun r => !(r.event == eid && r.user == uid)))⟩ := by
    unfold removeRsvpDoc
    dsimp only
    simp [incAttendees, totalPeople]
  refine ⟨?_, ?_, ?_⟩
  · rw [hsave]
    exact he
  · rw [hsave, hrem]
    have := findEvent_updEvents_eq db.events
      ((((⟨eid, uid, RsvpStatus.waitlisted, g⟩ : Rsvp) :: db.rsvps)).filter
        (fun r => !(r.event == eid && r.user == uid))) db.rsvps eid
      (fun ev => { ev with currentAttendees :=
          ev.currentAttendees + -(1 + (g : Int)) }) e he
    rw [this]
    dsimp only
    have harith : e.currentAttendees + -(1 + (g : Int)) =
        e.currentAttendees - (1 + (g : Int)) := by ring
    rw [harith]
  · have hg : (0 : Int) ≤ (g : Int) := Int.natCast_nonneg g
    omega

/-- Witness for C10: a 2-guest waitlisted RSVP is created (counter stays 4)
and then removed through the document path (counter drops to 1 < 4). -/
theorem c10_waitlist_witness :
    (let db : DB := ⟨[(0, ⟨EventStatus.approved, 10, 4, 100, 9⟩)], []⟩
     findEvent db 0 = some ⟨EventStatus.approved, 10, 4, 100, 9⟩ ∧
     findRsvp db 0 1 = none ∧
     (findEvent (saveRsvp db ⟨0, 1, RsvpStatus.waitlisted, 2⟩) 0 =
        some ⟨EventStatus.approved, 10, 4, 100, 9⟩ ∧
      findEvent (removeRsvpDoc (saveRsvp db ⟨0, 1, RsvpStatus.waitlisted, 2⟩)
          ⟨0, 1, RsvpStatus.waitlisted, 2⟩) 0 =
        some ⟨EventStatus.approved, 10, (4 : Int) - (1 + 2), 100, 9⟩ ∧
      (4 : Int) - (1 + 2) < 4)) :=
  ⟨by decide, by decide,
    c10_waitlist_create_remove_decreases _ 0 1 2
      ⟨EventStatus.approved, 10, 4, 100, 9⟩ (by decide) (by decide)⟩
